import Mathlib

/-! Verification of the finite-source seismogram route.

A shallow embedding of `instaseis/server/routes/finite_source.py`:
the time-window resolution (`parse_time_settings`), the source-model
preparation (`_parse_and_resample_finite_source`) and the per-receiver
streaming orchestration loop (`post` / `_get_finite_source`).

Modelling conventions:
* Absolute times (`obspy.UTCDateTime`) and durations are rationals
  (seconds); `UTCDateTime + float` is rational addition.
* A `starttime`/`endtime` request argument is a `TimeSetting`:
  an absolute datetime, a float offset, or a phase-relative setting
  (the three shapes produced by `_validtimesetting`).
* The Python call `round(x, 6)` is modelled by rounding the rational to six
  decimal places (`round6`); the claims under study never hit half-way
  or float-representation corner cases.
* The waveform database, the lowpass filter and the resampler are the
  external collaborators of the spec; they enter as parameters or as
  interface models marked `Modelled from the spec:`.
-/

namespace FiniteSourceRoute

/-- A time setting as produced by `_validtimesetting`: an absolute
`obspy.UTCDateTime`, a plain float offset, or a phase-relative setting
(`obspy.core.AttribDict` with a phase name and a signed offset). -/
inductive TimeSetting where
  | absolute (t : ℚ)
  | relative (offset : ℚ)
  | phase (name : String) (offset : ℚ)
deriving DecidableEq, Repr

/-- The fields of `db.info` used by this route: dominant period,
native sample interval `dt`, sample count `npts` and length in
seconds. -/
structure DBInfo where
  period : ℚ
  dt : ℚ
  npts : ℕ
  length : ℚ
deriving DecidableEq, Repr

/-- One point source: its slip-rate series and its time shift. -/
structure PointSource where
  sliprate : List ℚ
  time_shift : ℚ
deriving DecidableEq, Repr

/-- The finite-source model, as used by this route.

`pointsources`, `additional_time_shift` and `origin_time` are the
attributes the route reads or writes.  `time_shift` is the model-level
attribute read at `parse_time_settings`; the `FiniteSource` class is not
part of the sources under study, so it is Modelled from the spec: the
base time shift the model itself carries prior to padding, a stored attribute that
the preparation step does not rewrite (only the per-point-source shifts
are padded). -/
structure FiniteSource where
  pointsources : List PointSource
  time_shift : ℚ
  additional_time_shift : ℚ
  origin_time : ℚ
deriving DecidableEq, Repr

/-- The request arguments consumed by `parse_time_settings`:
`origintime`, `starttime`, `endtime`, `dt` and `kernelwidth`
(`kernelwidth` defaults to 12 at argument parsing). -/
structure Args where
  origintime : Option ℚ
  starttime : Option TimeSetting
  endtime : Option TimeSetting
  dt : Option ℚ
  kernelwidth : ℤ
deriving DecidableEq, Repr

/-- The fixed default origin epoch `obspy.UTCDateTime(1900, 1, 1)` in POSIX seconds: the default
origin epoch (`default_origin_time` on the handler). -/
def default_origin_time : ℚ := -2208988800

/-- Models the Python call `round(x, 6)`: round to six decimal places. -/
def round6 (x : ℚ) : ℚ := ((round (x * 1000000) : ℤ) : ℚ) / 1000000

/-- Message `"The `starttime` must be before the seismogram ends."` -/
def msg_start_must_be_before_end : String :=
  "The `starttime` must be before the seismogram ends."

/-- Message `"The seismogram can start at the maximum one hour before the origin time."` -/
def msg_start_at_most_hour_early : String :=
  "The seismogram can start at the maximum one hour before the origin time."

/-- Message `"The end time of the seismograms lies outside the allowed range."` -/
def msg_end_outside_range : String :=
  "The end time of the seismograms lies outside the allowed range."

/-- The origin time after defaulting: `if args.origintime is None:
args.origintime = self.default_origin_time`. -/
def resolved_origintime (args : Args) : ℚ :=
  args.origintime.getD default_origin_time

/-- The start time after defaulting and float resolution:
if unset it becomes the origin time; a float is treated relative to the
origin time (`args.starttime = args.origintime + args.starttime`). -/
def resolved_starttime (args : Args) : TimeSetting :=
  match args.starttime.getD (TimeSetting.absolute (resolved_origintime args)) with
  | TimeSetting.relative o => TimeSetting.absolute (resolved_origintime args + o)
  | s => s

/-- The end time after float resolution but before the `latest_endtime`
default: a float end time is added to the start time when the start time
is already absolute, and is kept as-is (resolved later per receiver)
when the start time is phase relative. -/
def resolved_endtime0 (args : Args) : Option TimeSetting :=
  match args.endtime, resolved_starttime args with
  | some (TimeSetting.relative o), TimeSetting.absolute s =>
      some (TimeSetting.absolute (s + o))
  | e, _ => e

/-- Computes `time_of_first_sample = args.origintime - finite_source.time_shift`. -/
def time_of_first_sample (fs : FiniteSource) (args : Args) : ℚ :=
  resolved_origintime args - fs.time_shift

/-- Computes `earliest_starttime = time_of_first_sample +
finite_source.additional_time_shift`. -/
def earliest_starttime (fs : FiniteSource) (args : Args) : ℚ :=
  time_of_first_sample fs args + fs.additional_time_shift

/-- Computes `latest_endtime = time_of_first_sample + db.info.length`, minus the
affected area `args.kernelwidth * db.info.dt` when `args.dt is not None
and round(args.dt / db.info.dt, 6) != 0`. -/
def latest_endtime (db : DBInfo) (fs : FiniteSource) (args : Args) : ℚ :=
  let base := time_of_first_sample fs args + db.length
  match args.dt with
  | some dt =>
      if round6 (dt / db.dt) ≠ 0 then base - (args.kernelwidth : ℚ) * db.dt
      else base
  | none => base

/-- The end time after the default `if args.endtime is None:
args.endtime = latest_endtime`. -/
def resolved_endtime (db : DBInfo) (fs : FiniteSource) (args : Args) : TimeSetting :=
  (resolved_endtime0 args).getD (TimeSetting.absolute (latest_endtime db fs args))

/-- The start-time sanity checks of `parse_time_settings`, applied only
when the resolved start time is an absolute `UTCDateTime`:
`args.starttime >= latest_endtime` raises "must be before the seismogram
ends", and `args.starttime < earliest_starttime - 3600` raises "at the
maximum one hour before the origin time". -/
def start_check_error (db : DBInfo) (fs : FiniteSource) (args : Args) :
    Option String :=
  match resolved_starttime args with
  | TimeSetting.absolute s =>
      if latest_endtime db fs args ≤ s then some msg_start_must_be_before_end
      else if s < earliest_starttime fs args - 3600 then
        some msg_start_at_most_hour_early
      else none
  | _ => none

/-- The value returned by `parse_time_settings` on success: the resolved
arguments together with the triple `(time_of_first_sample,
earliest_starttime, latest_endtime)`. -/
structure ParsedTimes where
  args : Args
  time_of_first_sample : ℚ
  earliest_starttime : ℚ
  latest_endtime : ℚ
deriving DecidableEq, Repr

/-- The arguments record after time resolution, as
`parse_time_settings` leaves it (it resolves the origin, start and end
time fields in place). -/
def resolved_args (db : DBInfo) (fs : FiniteSource) (args : Args) : Args :=
  { args with
      origintime := some (resolved_origintime args)
      starttime := some (resolved_starttime args)
      endtime := some (resolved_endtime db fs args) }

/-- Embeds `FiniteSourceSeismogramsHandler.parse_time_settings`:
resolve the origin, start and end time settings, compute the window
triple, and run the sanity checks, raising `tornado.web.HTTPError(400)`
(here: `Except.error` with the message) on a violation. -/
def parse_time_settings (db : DBInfo) (fs : FiniteSource) (args : Args) :
    Except String ParsedTimes :=
  let tofs := time_of_first_sample fs args
  let earliest := earliest_starttime fs args
  let latest := latest_endtime db fs args
  let et := resolved_endtime db fs args
  let resolvedArgs : Args := resolved_args db fs args
  match start_check_error db fs args with
  | some m => Except.error m
  | none =>
      match et with
      | TimeSetting.absolute e =>
          if earliest ≤ e ∧ e ≤ latest then
            Except.ok ⟨resolvedArgs, tofs, earliest, latest⟩
          else Except.error msg_end_outside_range
      | _ => Except.ok ⟨resolvedArgs, tofs, earliest, latest⟩

/-! ## Source-model preparation (`_parse_and_resample_finite_source`)

The raw USGS-param parsing, the lowpass filter and the hypocenter search
are external collaborators; the padding/shift bookkeeping below is the
code of the route. -/

/-- Computes `samples = int(math.ceil((2 * dominant_period / db_info.dt))) + 1`. -/
def prep_samples (db : DBInfo) : ℤ := ⌈2 * db.period / db.dt⌉ + 1

/-- Computes `shift = samples * db_info.dt`. -/
def prep_shift (db : DBInfo) : ℚ := (prep_samples db : ℚ) * db.dt

/-- One iteration of the padding loop:
`source.sliprate = np.concatenate([zeros, source.sliprate, zeros])` and
`source.time_shift += shift`, where `zeros = np.zeros(samples)`. -/
def pad_source (db : DBInfo) (s : PointSource) : PointSource :=
  let zeros : List ℚ := List.replicate (prep_samples db).toNat 0
  { s with sliprate := zeros ++ s.sliprate ++ zeros
           time_shift := s.time_shift + prep_shift db }

/-- Modelled from the spec: `FiniteSource.resample_sliprate(dt, nsamp)`
is one of the excluded low-level signal primitives (not under the
sources in study); the only contract the spec states is that every
slip-rate series is resampled onto the database sample interval with
exactly `nsamp` samples, so it is modelled as a sample-count-`nsamp`
reading of the series. -/
def resample_sliprate (nsamp : ℕ) (s : List ℚ) : List ℚ :=
  (List.range nsamp).map (fun i => s.getD i 0)

/-- Embeds the preparation part of `_parse_and_resample_finite_source`
after the body has been parsed into `fs`: pad every point source with
`samples` zeros on both sides and shift it, record
`additional_time_shift = shift`, lowpass-filter every series (the
filter `lp` is an external numerical collaborator, kept abstract), and
resample every series to `db_info.npts + 2 * samples` samples.
(`find_hypocenter` only sets the hypocentral coordinates, which this
model does not carry.) -/
def prepare_finite_source (lp : List ℚ → List ℚ) (db : DBInfo)
    (fs : FiniteSource) : FiniteSource :=
  let samples := (prep_samples db).toNat
  let padded := { fs with
    pointsources := fs.pointsources.map (pad_source db)
    additional_time_shift := prep_shift db }
  let filtered := { padded with
    pointsources := padded.pointsources.map
      (fun (s : PointSource) => { s with sliprate := lp s.sliprate }) }
  { filtered with
    pointsources := filtered.pointsources.map
      (fun (s : PointSource) => { s with
        sliprate := resample_sliprate (db.npts + 2 * samples) s.sliprate }) }

/-! ## The streaming orchestration loop (`post` and `_get_finite_source`)

External collaborators enter as parameters:
* `extract r w` — `db.get_seismograms_finite_source(...)` followed by
  `_validate_and_write_waveforms`, producing the (opaque) payload for
  receiver `r` over window `w`, or any exception `ε`;
* `resolve r` — `get_phase_relative_times(...)`: `none` means no
  window for this receiver (skip), `some (starttime, endtime)` the
  resolved concrete window;
* `closed j` — the value of the `connection_closed` flag at the `j`-th
  connection check the handler performs. -/

/-- Message `"Could not extract seismogram. ..."` — the fixed generic message of
`_get_finite_source`. -/
def msg_could_not_extract : String :=
  "Could not extract seismogram. Make sure, the components are valid, and the depth settings are correct."

/-- The long `"No seismograms found for the given phase relative offsets..."`
message raised when the success counter is zero after the loop. -/
def msg_no_seismograms : String :=
  "No seismograms found for the given phase relative offsets. This could either be due to the chosen phase not existing for the specific source-receiver geometry or arriving too late/with too large offsets if the database is not long enough."

/-- Performs `finite_source.origin_time = time_of_first_sample +
finite_source.additional_time_shift` — the reassignment `_get_finite_source`
performs on the shared model after a successful extraction. -/
def set_origin (tofs : ℚ) (fs : FiniteSource) : FiniteSource :=
  { fs with origin_time := tofs + fs.additional_time_shift }

/-- Embeds `_get_finite_source` for one receiver: on any exception from
the database the fixed generic 400 message is returned and the model is
untouched; on success the `origin_time` of the model is reassigned to
`time_of_first_sample + finite_source.additional_time_shift` and the
payload is returned.  (Setting `tr.stats.starttime` happens inside the
opaque payload.) -/
def get_finite_source {ε α : Type} (extracted : Except ε α)
    (fs : FiniteSource) (tofs : ℚ) : Except String α × FiniteSource :=
  match extracted with
  | Except.error _ => (Except.error msg_could_not_extract, fs)
  | Except.ok st => (Except.ok st, set_origin tofs fs)

/-- The per-request mutable state threaded through the receiver loop:
the number of connection checks performed so far, the payloads written
(and flushed) to the client, the number of extraction tasks dispatched,
the success counter `count`, and the shared finite-source model. -/
structure LoopState (α : Type) where
  checks : ℕ
  written : List α
  dispatched : ℕ
  count : ℕ
  fs : FiniteSource
deriving DecidableEq, Repr

/-- How a request ends: the loop ran to completion (`finished`), the
connection was found closed and the response was flushed and finished
without error (`closedConn`), or an `HTTPError` was raised
(`httpError`). -/
inductive PostResult (α : Type) where
  | finished (s : LoopState α)
  | closedConn (s : LoopState α)
  | httpError (msg : String) (s : LoopState α)
deriving DecidableEq, Repr

/-- Embeds the `for receiver in receivers:` loop of
`FiniteSourceSeismogramsHandler.post`: connection check, phase-relative
window resolution (skip on `none`), extraction task, second connection
check, re-raise of returned exceptions, write + flush, success count. -/
def receiver_loop {ρ ε α : Type} (closed : ℕ → Bool)
    (resolve : ρ → Option (ℚ × ℚ))
    (extract : ρ → ℚ × ℚ → Except ε α) (tofs : ℚ) :
    List ρ → LoopState α → PostResult α
  | [], s => PostResult.finished s
  | r :: rest, s =>
      if closed s.checks then
        PostResult.closedConn { s with checks := s.checks + 1 }
      else
        let s1 := { s with checks := s.checks + 1 }
        match resolve r with
        | none => receiver_loop closed resolve extract tofs rest s1
        | some w =>
            let res := get_finite_source (extract r w) s1.fs tofs
            let s2 := { s1 with dispatched := s1.dispatched + 1, fs := res.2 }
            if closed s2.checks then
              PostResult.closedConn { s2 with checks := s2.checks + 1 }
            else
              let s3 := { s2 with checks := s2.checks + 1 }
              match res.1 with
              | Except.error m => PostResult.httpError m s3
              | Except.ok p =>
                  receiver_loop closed resolve extract tofs rest
                    { s3 with written := s3.written ++ [p],
                              count := s3.count + 1 }

/-- Embeds the tail of `FiniteSourceSeismogramsHandler.post`: run the
receiver loop from the fresh per-request state and, when the loop ran to
completion with a zero success counter, raise the 400
"No seismograms found ..." error. -/
def post {ρ ε α : Type} (closed : ℕ → Bool) (resolve : ρ → Option (ℚ × ℚ))
    (extract : ρ → ℚ × ℚ → Except ε α) (tofs : ℚ) (fs : FiniteSource)
    (receivers : List ρ) : PostResult α :=
  match receiver_loop closed resolve extract tofs receivers
      ⟨0, [], 0, 0, fs⟩ with
  | PostResult.finished s =>
      if s.count = 0 then PostResult.httpError msg_no_seismograms s
      else PostResult.finished s
  | r => r

/-- The final loop state of a `PostResult`, whatever the outcome. -/
def PostResult.state {α : Type} : PostResult α → LoopState α
  | PostResult.finished s => s
  | PostResult.closedConn s => s
  | PostResult.httpError _ s => s

/-! ## Helper lemmas -/

theorem prepare_time_shift (lp : List ℚ → List ℚ) (db : DBInfo)
    (raw : FiniteSource) :
    (prepare_finite_source lp db raw).time_shift = raw.time_shift := rfl

theorem prepare_additional (lp : List ℚ → List ℚ) (db : DBInfo)
    (raw : FiniteSource) :
    (prepare_finite_source lp db raw).additional_time_shift = prep_shift db :=
  rfl

/-- On success, `parse_time_settings` returns exactly the resolved
arguments and the window triple computed before the checks. -/
theorem parse_ok_fields (db : DBInfo) (fs : FiniteSource) (args : Args)
    (pt : ParsedTimes)
    (h : parse_time_settings db fs args = Except.ok pt) :
    pt = ⟨resolved_args db fs args,
          time_of_first_sample fs args, earliest_starttime fs args,
          latest_endtime db fs args⟩ := by
  simp only [parse_time_settings] at h
  split at h
  · exact absurd h (by simp)
  · split at h
    · split at h
      · exact (Except.ok.inj h).symm
      · exact absurd h (by simp)
    · exact (Except.ok.inj h).symm

/-! ## Concrete sample values used by the evaluation witnesses -/

/-- Sample database info: dominant period 1 s, native `dt` 1 s,
100 samples, length 200 s. -/
def sampleDB : DBInfo := ⟨1, 1, 100, 200⟩

/-- A sample raw (unprepared) finite source with a single point source. -/
def sampleRaw : FiniteSource := ⟨[⟨[1, 2], 0⟩], 0, 0, 0⟩

/-- Sample arguments: origin 0, absolute start 0, no end, no `dt`. -/
def sampleArgs : Args := ⟨some 0, some (TimeSetting.absolute 0), none, none, 12⟩

/-- The parsed-times value `parse_time_settings` produces for `sampleDB`,
`prepare_finite_source id sampleDB sampleRaw` and `sampleArgs`. -/
def samplePT : ParsedTimes :=
  ⟨⟨some 0, some (TimeSetting.absolute 0), some (TimeSetting.absolute 200),
    none, 12⟩, 0, 3, 200⟩

/-! ## The claims -/

/-- C1 (code-bug evidence): `latest_endtime` is
`time_of_first_sample + db.info.length` when no `dt` is requested, but
the guard for subtracting the margin `kernelwidth * db.info.dt` is
`round(args.dt / db.info.dt, 6) != 0`, which already holds when the
requested `dt` **equals** the native `dt` (the ratio rounds to 1, not
0).  At `dt = db.dt = 1`, `kernelwidth = 12`, the code returns
`tofs + length - 12`, not the `tofs + length` the spec requires for a
non-resampling request. -/
theorem latest_endtime_margin_at_native_dt :
    latest_endtime ⟨1, 1, 100, 200⟩ ⟨[], 0, 0, 0⟩
        ⟨some 0, none, none, none, 12⟩ = 200 ∧
    latest_endtime ⟨1, 1, 100, 200⟩ ⟨[], 0, 0, 0⟩
        ⟨some 0, none, none, some 1, 12⟩ = 188 ∧
    latest_endtime ⟨1, 1, 100, 200⟩ ⟨[], 0, 0, 0⟩
        ⟨some 0, none, none, some 1, 12⟩ ≠
      time_of_first_sample ⟨[], 0, 0, 0⟩ ⟨some 0, none, none, some 1, 12⟩ +
        (200 : ℚ) := by
  refine ⟨?_, ?_, ?_⟩ <;>
    norm_num [latest_endtime, time_of_first_sample, resolved_origintime,
      round6, round_eq]

/-- C2: for a prepared model, the resolver returns `time_of_first_sample`
equal to the origin time minus the base model time shift, and
`earliest_starttime` is `time_of_first_sample` plus the
`additional_time_shift` recorded during preparation, which equals
exactly `samples * db.dt`. -/
theorem prepared_window_round_trip (lp : List ℚ → List ℚ) (db : DBInfo)
    (raw : FiniteSource) (args : Args) (pt : ParsedTimes)
    (hok : parse_time_settings db (prepare_finite_source lp db raw) args =
      Except.ok pt) :
    pt.time_of_first_sample = resolved_origintime args - raw.time_shift ∧
    pt.earliest_starttime =
      pt.time_of_first_sample + (prep_samples db : ℚ) * db.dt ∧
    (prepare_finite_source lp db raw).additional_time_shift =
      (prep_samples db : ℚ) * db.dt := by
  have h := parse_ok_fields _ _ _ _ hok
  subst h
  refine ⟨?_, ?_, ?_⟩ <;>
    simp [time_of_first_sample, earliest_starttime, prepare_time_shift,
      prepare_additional, prep_shift]

/-- Witness for C2 at `sampleDB`/`sampleRaw`/`sampleArgs`. -/
theorem prepared_window_round_trip_witness :
    parse_time_settings sampleDB (prepare_finite_source id sampleDB sampleRaw)
        sampleArgs = Except.ok samplePT ∧
    samplePT.time_of_first_sample =
      resolved_origintime sampleArgs - sampleRaw.time_shift ∧
    samplePT.earliest_starttime =
      samplePT.time_of_first_sample + (prep_samples sampleDB : ℚ) * sampleDB.dt ∧
    (prepare_finite_source id sampleDB sampleRaw).additional_time_shift =
      (prep_samples sampleDB : ℚ) * sampleDB.dt := by
  have hok : parse_time_settings sampleDB
      (prepare_finite_source id sampleDB sampleRaw) sampleArgs =
      Except.ok samplePT := by
    norm_num [parse_time_settings, start_check_error, resolved_args,
      resolved_starttime, resolved_origintime, resolved_endtime,
      resolved_endtime0, latest_endtime, earliest_starttime,
      time_of_first_sample, prepare_finite_source, prep_shift, prep_samples,
      sampleDB, sampleRaw, sampleArgs, samplePT]
  exact ⟨hok, prepared_window_round_trip id sampleDB sampleRaw sampleArgs
    samplePT hok⟩

/-- C3: the origin time defaults to the fixed 1900-01-01 epoch; an unset
start time defaults to the origin time; a float start offset `o`
resolves to `origintime + o`; a float end offset resolves to
`starttime + offset` when the start time is absolute, and is kept
unresolved (deferred to per-receiver resolution) when the start time is
phase relative. -/
theorem time_setting_resolution (args : Args) :
    (args.origintime = none →
      resolved_origintime args = default_origin_time) ∧
    (args.starttime = none →
      resolved_starttime args =
        TimeSetting.absolute (resolved_origintime args)) ∧
    (∀ T0 o, args.origintime = some T0 →
      args.starttime = some (TimeSetting.relative o) →
      resolved_starttime args = TimeSetting.absolute (T0 + o)) ∧
    (∀ s o, resolved_starttime args = TimeSetting.absolute s →
      args.endtime = some (TimeSetting.relative o) →
      resolved_endtime0 args = some (TimeSetting.absolute (s + o))) ∧
    (∀ nm po o, resolved_starttime args = TimeSetting.phase nm po →
      args.endtime = some (TimeSetting.relative o) →
      resolved_endtime0 args = some (TimeSetting.relative o)) := by
  refine ⟨?_, ?_, ?_, ?_, ?_⟩
  · intro h; simp [resolved_origintime, h]
  · intro h; simp [resolved_starttime, h]
  · intro T0 o hT hs
    simp [resolved_starttime, resolved_origintime, hT, hs]
  · intro s o hst he
    simp only [resolved_endtime0, he, hst]
  · intro nm po o hst he
    simp only [resolved_endtime0, he, hst]

/-- Witness for C3: each resolution rule evaluated at a concrete
argument record. -/
theorem time_setting_resolution_witness :
    resolved_origintime ⟨none, none, none, none, 12⟩ = default_origin_time ∧
    resolved_starttime ⟨none, none, none, none, 12⟩ =
      TimeSetting.absolute (resolved_origintime ⟨none, none, none, none, 12⟩) ∧
    resolved_starttime ⟨some 100, some (TimeSetting.relative 7), none, none, 12⟩ =
      TimeSetting.absolute (100 + 7) ∧
    resolved_endtime0
        ⟨some 100, some (TimeSetting.absolute 50),
         some (TimeSetting.relative 9), none, 12⟩ =
      some (TimeSetting.absolute (50 + 9)) ∧
    resolved_endtime0
        ⟨none, some (TimeSetting.phase "P" 1),
         some (TimeSetting.relative 9), none, 12⟩ =
      some (TimeSetting.relative 9) := by
  refine ⟨(time_setting_resolution _).1 rfl,
    (time_setting_resolution _).2.1 rfl,
    (time_setting_resolution _).2.2.1 100 7 rfl rfl,
    (time_setting_resolution _).2.2.2.1 50 9 rfl rfl,
    (time_setting_resolution _).2.2.2.2 "P" 1 9 rfl rfl⟩

/-- C4: for an absolute resolved start time `s`, `s >= latest_endtime`
raises the 400 "must be before the seismogram ends" error;
`s < earliest_starttime - 3600` raises a 400 validation error (the
"one hour before origin" message whenever the first check passed);
exactly at the boundary `s = earliest_starttime - 3600` the call
succeeds (provided the remaining checks hold); and a phase-relative
start time is exempt from both start checks. -/
theorem start_time_validation (db : DBInfo) (fs : FiniteSource)
    (args : Args) :
    (∀ s, resolved_starttime args = TimeSetting.absolute s →
      latest_endtime db fs args ≤ s →
      parse_time_settings db fs args =
        Except.error msg_start_must_be_before_end) ∧
    (∀ s, resolved_starttime args = TimeSetting.absolute s →
      s < earliest_starttime fs args - 3600 →
      (∃ m, parse_time_settings db fs args = Except.error m) ∧
      (¬ latest_endtime db fs args ≤ s →
        parse_time_settings db fs args =
          Except.error msg_start_at_most_hour_early)) ∧
    (∀ s, resolved_starttime args = TimeSetting.absolute s →
      s = earliest_starttime fs args - 3600 →
      s < latest_endtime db fs args →
      (∀ e, resolved_endtime db fs args = TimeSetting.absolute e →
        earliest_starttime fs args ≤ e ∧ e ≤ latest_endtime db fs args) →
      ∃ pt, parse_time_settings db fs args = Except.ok pt) ∧
    (∀ nm o, resolved_starttime args = TimeSetting.phase nm o →
      (∃ pt, parse_time_settings db fs args = Except.ok pt) ∨
      parse_time_settings db fs args =
        Except.error msg_end_outside_range) := by
  refine ⟨?_, ?_, ?_, ?_⟩
  · intro s hst hle
    have hsc : start_check_error db fs args =
        some msg_start_must_be_before_end := by
      simp [start_check_error, hst, hle]
    simp [parse_time_settings, hsc]
  · intro s hst hlt
    by_cases hle : latest_endtime db fs args ≤ s
    · have hsc : start_check_error db fs args =
          some msg_start_must_be_before_end := by
        simp [start_check_error, hst, hle]
      exact ⟨⟨msg_start_must_be_before_end,
        by simp [parse_time_settings, hsc]⟩, fun h => absurd hle h⟩
    · have hsc : start_check_error db fs args =
          some msg_start_at_most_hour_early := by
        simp [start_check_error, hst, hle, hlt]
      exact ⟨⟨msg_start_at_most_hour_early,
        by simp [parse_time_settings, hsc]⟩,
        fun _ => by simp [parse_time_settings, hsc]⟩
  · intro s hst hs hlt hbound
    have h1 : ¬ latest_endtime db fs args ≤ s := not_le.mpr hlt
    have h2 : ¬ s < earliest_starttime fs args - 3600 := by
      rw [hs]; exact lt_irrefl _
    have hsc : start_check_error db fs args = none := by
      simp [start_check_error, hst, h1, h2]
    rcases het : resolved_endtime db fs args with e | o | ⟨nm, o⟩
    · have hb := hbound e het
      exact ⟨⟨resolved_args db fs args, time_of_first_sample fs args,
        earliest_starttime fs args, latest_endtime db fs args⟩,
        by simp [parse_time_settings, hsc, het, hb.1, hb.2]⟩
    · exact ⟨⟨resolved_args db fs args, time_of_first_sample fs args,
        earliest_starttime fs args, latest_endtime db fs args⟩,
        by simp [parse_time_settings, hsc, het]⟩
    · exact ⟨⟨resolved_args db fs args, time_of_first_sample fs args,
        earliest_starttime fs args, latest_endtime db fs args⟩,
        by simp [parse_time_settings, hsc, het]⟩
  · intro nm o hst
    have hsc : start_check_error db fs args = none := by
      simp [start_check_error, hst]
    rcases het : resolved_endtime db fs args with e | o2 | ⟨nm2, o2⟩
    · by_cases hb : earliest_starttime fs args ≤ e ∧
          e ≤ latest_endtime db fs args
      · exact Or.inl ⟨⟨resolved_args db fs args, time_of_first_sample fs args,
          earliest_starttime fs args, latest_endtime db fs args⟩,
          by simp [parse_time_settings, hsc, het, hb.1, hb.2]⟩
      · exact Or.inr (by simp [parse_time_settings, hsc, het, hb])
    · exact Or.inl ⟨⟨resolved_args db fs args, time_of_first_sample fs args,
        earliest_starttime fs args, latest_endtime db fs args⟩,
        by simp [parse_time_settings, hsc, het]⟩
    · exact Or.inl ⟨⟨resolved_args db fs args, time_of_first_sample fs args,
        earliest_starttime fs args, latest_endtime db fs args⟩,
        by simp [parse_time_settings, hsc, het]⟩

/-- A finite source with no shifts, used by the validation witnesses:
its window for origin 0 is `tofs = 0`, `earliest = 0`, `latest = 200`
over `sampleDB`. -/
def flatFS : FiniteSource := ⟨[], 0, 0, 0⟩

/-- Arguments requesting a start after the window end (witness input). -/
def argsStartLate : Args :=
  ⟨some 0, some (TimeSetting.absolute 300), none, none, 12⟩

/-- Arguments requesting a start more than one hour before the earliest
start (witness input). -/
def argsStartEarly : Args :=
  ⟨some 0, some (TimeSetting.absolute (-4000)), none, none, 12⟩

/-- Arguments requesting a start exactly one hour before the earliest
start, with a valid end time (witness input). -/
def argsStartBoundary : Args :=
  ⟨some 0, some (TimeSetting.absolute (-3600)),
   some (TimeSetting.absolute 100), none, 12⟩

/-- Arguments with a phase-relative start time (witness input). -/
def argsStartPhase : Args :=
  ⟨some 0, some (TimeSetting.phase "P" 10), none, none, 12⟩

/-- Witness for C4: the four start-time rules evaluated on `sampleDB`
and `flatFS` (window `[0, 200]`, one-hour bound `-3600`). -/
theorem start_time_validation_witness :
    parse_time_settings sampleDB flatFS argsStartLate =
      Except.error msg_start_must_be_before_end ∧
    (∃ m, parse_time_settings sampleDB flatFS argsStartEarly =
      Except.error m) ∧
    (∃ pt, parse_time_settings sampleDB flatFS argsStartBoundary =
      Except.ok pt) ∧
    ((∃ pt, parse_time_settings sampleDB flatFS argsStartPhase =
      Except.ok pt) ∨
     parse_time_settings sampleDB flatFS argsStartPhase =
      Except.error msg_end_outside_range) := by
  refine ⟨?_, ?_, ?_, ?_⟩
  · exact (start_time_validation sampleDB flatFS argsStartLate).1 300 rfl
      (by norm_num [latest_endtime, time_of_first_sample,
        resolved_origintime, sampleDB, flatFS, argsStartLate])
  · exact ((start_time_validation sampleDB flatFS argsStartEarly).2.1
      (-4000) rfl
      (by norm_num [earliest_starttime, time_of_first_sample,
        resolved_origintime, sampleDB, flatFS, argsStartEarly])).1
  · exact (start_time_validation sampleDB flatFS argsStartBoundary).2.2.1
      (-3600) rfl
      (by norm_num [earliest_starttime, time_of_first_sample,
        resolved_origintime, sampleDB, flatFS, argsStartBoundary])
      (by norm_num [latest_endtime, time_of_first_sample,
        resolved_origintime, sampleDB, flatFS, argsStartBoundary])
      (by
        intro e he
        simp only [resolved_endtime, resolved_endtime0, resolved_starttime,
          resolved_origintime, argsStartBoundary, Option.getD,
          TimeSetting.absolute.injEq] at he
        subst he
        norm_num [earliest_starttime, latest_endtime, time_of_first_sample,
          resolved_origintime, sampleDB, flatFS, argsStartBoundary])
  · exact (start_time_validation sampleDB flatFS argsStartPhase).2.2.2
      "P" 10 rfl

/-- C5: an unset end time defaults to `latest_endtime`; an absolute
resolved end time outside the closed interval
`[earliest_starttime, latest_endtime]` raises the 400 "outside the
allowed range" error (it is the raised error whenever the start checks
passed), while an end time inside the interval, endpoints included,
passes the end check and the call succeeds. -/
theorem end_time_validation (db : DBInfo) (fs : FiniteSource)
    (args : Args) :
    (args.endtime = none →
      resolved_endtime db fs args =
        TimeSetting.absolute (latest_endtime db fs args)) ∧
    (∀ e, resolved_endtime db fs args = TimeSetting.absolute e →
      (e < earliest_starttime fs args ∨ latest_endtime db fs args < e) →
      (∃ m, parse_time_settings db fs args = Except.error m) ∧
      (start_check_error db fs args = none →
        parse_time_settings db fs args =
          Except.error msg_end_outside_range)) ∧
    (∀ e, resolved_endtime db fs args = TimeSetting.absolute e →
      earliest_starttime fs args ≤ e → e ≤ latest_endtime db fs args →
      start_check_error db fs args = none →
      parse_time_settings db fs args =
        Except.ok ⟨resolved_args db fs args, time_of_first_sample fs args,
          earliest_starttime fs args, latest_endtime db fs args⟩) := by
  refine ⟨?_, ?_, ?_⟩
  · intro h
    simp [resolved_endtime, resolved_endtime0, h]
  · intro e het houts
    have hb : ¬ (earliest_starttime fs args ≤ e ∧
        e ≤ latest_endtime db fs args) := by
      rcases houts with h | h
      · exact fun hc => absurd hc.1 (not_le.mpr h)
      · exact fun hc => absurd hc.2 (not_le.mpr h)
    constructor
    · rcases hsc : start_check_error db fs args with _ | m
      · exact ⟨msg_end_outside_range,
          by simp [parse_time_settings, hsc, het, hb]⟩
      · exact ⟨m, by simp [parse_time_settings, hsc]⟩
    · intro hsc
      simp [parse_time_settings, hsc, het, hb]
  · intro e het h1 h2 hsc
    simp [parse_time_settings, hsc, het, h1, h2]

/-- Arguments with no end time: it defaults to the window end
(witness input). -/
def argsEndUnset : Args :=
  ⟨some 0, some (TimeSetting.absolute 0), none, none, 12⟩

/-- Arguments with an end time past the window end (witness input). -/
def argsEndFar : Args :=
  ⟨some 0, some (TimeSetting.absolute 0),
   some (TimeSetting.absolute 500), none, 12⟩

/-- Arguments with an end time at the window end exactly
(witness input). -/
def argsEndBoundary : Args :=
  ⟨some 0, some (TimeSetting.absolute 0),
   some (TimeSetting.absolute 200), none, 12⟩

/-- Witness for C5: default end time, out-of-range end time and the
endpoint end time evaluated on `sampleDB` and `flatFS`
(window `[0, 200]`). -/
theorem end_time_validation_witness :
    resolved_endtime sampleDB flatFS argsEndUnset =
      TimeSetting.absolute (latest_endtime sampleDB flatFS argsEndUnset) ∧
    parse_time_settings sampleDB flatFS argsEndFar =
      Except.error msg_end_outside_range ∧
    parse_time_settings sampleDB flatFS argsEndBoundary =
      Except.ok ⟨resolved_args sampleDB flatFS argsEndBoundary,
        time_of_first_sample flatFS argsEndBoundary,
        earliest_starttime flatFS argsEndBoundary,
        latest_endtime sampleDB flatFS argsEndBoundary⟩ := by
  refine ⟨(end_time_validation sampleDB flatFS argsEndUnset).1 rfl, ?_, ?_⟩
  · exact ((end_time_validation sampleDB flatFS argsEndFar).2.1 500 rfl
      (Or.inr (by norm_num [latest_endtime, time_of_first_sample,
        resolved_origintime, sampleDB, flatFS, argsEndFar]))).2
      (by norm_num [start_check_error, resolved_starttime,
        resolved_origintime, latest_endtime, earliest_starttime,
        time_of_first_sample, sampleDB, flatFS, argsEndFar])
  · exact (end_time_validation sampleDB flatFS argsEndBoundary).2.2 200 rfl
      (by norm_num [earliest_starttime, time_of_first_sample,
        resolved_origintime, sampleDB, flatFS, argsEndBoundary])
      (by norm_num [latest_endtime, time_of_first_sample,
        resolved_origintime, sampleDB, flatFS, argsEndBoundary])
      (by norm_num [start_check_error, resolved_starttime,
        resolved_origintime, latest_endtime, earliest_starttime,
        time_of_first_sample, sampleDB, flatFS, argsEndBoundary])

/-! ### Padding decomposition helpers -/

theorem replicate_pad_take (n : ℕ) (xs : List ℚ) :
    (List.replicate n (0 : ℚ) ++ xs ++ List.replicate n 0).take n =
      List.replicate n 0 := by
  set zeros := List.replicate n (0 : ℚ) with hz
  rw [show n = zeros.length by simp [hz]]
  simp

theorem replicate_pad_drop (n : ℕ) (xs : List ℚ) :
    (List.replicate n (0 : ℚ) ++ xs ++ List.replicate n 0).drop
        (n + xs.length) = List.replicate n 0 := by
  set zeros := List.replicate n (0 : ℚ) with hz
  rw [show n = zeros.length by simp [hz]]
  rw [List.append_assoc, List.drop_append]
  simp

theorem replicate_pad_middle (n : ℕ) (xs : List ℚ) :
    ((List.replicate n (0 : ℚ) ++ xs ++ List.replicate n 0).drop n).take
        xs.length = xs := by
  set zeros := List.replicate n (0 : ℚ) with hz
  rw [show n = zeros.length by simp [hz]]
  rw [List.append_assoc]
  simp [List.take_append]

theorem replicate_pad_length (n : ℕ) (xs : List ℚ) :
    (List.replicate n (0 : ℚ) ++ xs ++ List.replicate n 0).length =
      xs.length + 2 * n := by
  simp; omega

/-- C6: model preparation computes
`samples = ceil(2 * period / db.dt) + 1` and `shift = samples * db.dt`,
records `additional_time_shift = shift`, pads each per-point-source
slip-rate series with exactly `samples` zeros on each side (leaving the
original samples in the middle) while increasing its time shift by
`shift`, and resamples every series to exactly
`db.npts + 2 * samples` samples, so all point sources end with the
identical sample count. -/
theorem preparation_padding (lp : List ℚ → List ℚ) (db : DBInfo)
    (fs : FiniteSource) :
    prep_samples db = ⌈2 * db.period / db.dt⌉ + 1 ∧
    (prepare_finite_source lp db fs).additional_time_shift =
      (prep_samples db : ℚ) * db.dt ∧
    (∀ s : PointSource,
      (pad_source db s).sliprate.take (prep_samples db).toNat =
        List.replicate (prep_samples db).toNat 0 ∧
      (pad_source db s).sliprate.drop
          ((prep_samples db).toNat + s.sliprate.length) =
        List.replicate (prep_samples db).toNat 0 ∧
      ((pad_source db s).sliprate.drop (prep_samples db).toNat).take
          s.sliprate.length = s.sliprate ∧
      (pad_source db s).sliprate.length =
        s.sliprate.length + 2 * (prep_samples db).toNat ∧
      (pad_source db s).time_shift =
        s.time_shift + (prep_samples db : ℚ) * db.dt) ∧
    (prepare_finite_source lp db fs).pointsources.map
        (fun s => s.sliprate.length) =
      List.replicate fs.pointsources.length
        (db.npts + 2 * (prep_samples db).toNat) := by
  refine ⟨rfl, rfl, ?_, ?_⟩
  · intro s
    refine ⟨replicate_pad_take _ _, replicate_pad_drop _ _,
      replicate_pad_middle _ _, replicate_pad_length _ _, ?_⟩
    simp [pad_source, prep_shift]
  · simp only [prepare_finite_source, List.map_map]
    rw [List.eq_replicate_iff]
    refine ⟨by simp, ?_⟩
    intro b hb
    simp only [List.mem_map, Function.comp] at hb
    obtain ⟨a, _, rfl⟩ := hb
    simp [resample_sliprate]

/-! ### Single-step unfoldings of the receiver loop -/

section Loop

variable {ρ ε α : Type} (closed : ℕ → Bool) (resolve : ρ → Option (ℚ × ℚ))
  (extract : ρ → ℚ × ℚ → Except ε α) (tofs : ℚ)

theorem receiver_loop_nil (s : LoopState α) :
    receiver_loop closed resolve extract tofs ([] : List ρ) s =
      PostResult.finished s := rfl

theorem receiver_loop_closed_step (r : ρ) (rest : List ρ) (s : LoopState α)
    (hc : closed s.checks = true) :
    receiver_loop closed resolve extract tofs (r :: rest) s =
      PostResult.closedConn { s with checks := s.checks + 1 } := by
  simp [receiver_loop, hc]

theorem receiver_loop_skip_step (r : ρ) (rest : List ρ) (s : LoopState α)
    (hc : closed s.checks = false) (hr : resolve r = none) :
    receiver_loop closed resolve extract tofs (r :: rest) s =
      receiver_loop closed resolve extract tofs rest
        { s with checks := s.checks + 1 } := by
  simp [receiver_loop, hc, hr]

theorem receiver_loop_ok_step (r : ρ) (rest : List ρ) (s : LoopState α)
    (w : ℚ × ℚ) (p : α) (hc : closed s.checks = false)
    (hr : resolve r = some w) (hx : extract r w = Except.ok p)
    (hc2 : closed (s.checks + 1) = false) :
    receiver_loop closed resolve extract tofs (r :: rest) s =
      receiver_loop closed resolve extract tofs rest
        ⟨s.checks + 2, s.written ++ [p], s.dispatched + 1, s.count + 1,
         set_origin tofs s.fs⟩ := by
  simp [receiver_loop, hc, hr, hx, get_finite_source, hc2]

theorem receiver_loop_ok_closed_step (r : ρ) (rest : List ρ)
    (s : LoopState α) (w : ℚ × ℚ) (p : α) (hc : closed s.checks = false)
    (hr : resolve r = some w) (hx : extract r w = Except.ok p)
    (hc2 : closed (s.checks + 1) = true) :
    receiver_loop closed resolve extract tofs (r :: rest) s =
      PostResult.closedConn
        ⟨s.checks + 2, s.written, s.dispatched + 1, s.count,
         set_origin tofs s.fs⟩ := by
  simp [receiver_loop, hc, hr, hx, get_finite_source, hc2]

theorem receiver_loop_error_step (r : ρ) (rest : List ρ) (s : LoopState α)
    (w : ℚ × ℚ) (e : ε) (hc : closed s.checks = false)
    (hr : resolve r = some w) (hx : extract r w = Except.error e)
    (hc2 : closed (s.checks + 1) = false) :
    receiver_loop closed resolve extract tofs (r :: rest) s =
      PostResult.httpError msg_could_not_extract
        ⟨s.checks + 2, s.written, s.dispatched + 1, s.count, s.fs⟩ := by
  simp [receiver_loop, hc, hr, hx, get_finite_source, hc2]

theorem receiver_loop_error_closed_step (r : ρ) (rest : List ρ)
    (s : LoopState α) (w : ℚ × ℚ) (e : ε) (hc : closed s.checks = false)
    (hr : resolve r = some w) (hx : extract r w = Except.error e)
    (hc2 : closed (s.checks + 1) = true) :
    receiver_loop closed resolve extract tofs (r :: rest) s =
      PostResult.closedConn
        ⟨s.checks + 2, s.written, s.dispatched + 1, s.count, s.fs⟩ := by
  simp [receiver_loop, hc, hr, hx, get_finite_source, hc2]

/-- The update `set_origin` is idempotent: it reads only `additional_time_shift`,
which it does not change. -/
theorem set_origin_idem (fs : FiniteSource) :
    set_origin tofs (set_origin tofs fs) = set_origin tofs fs := rfl

/-- Running the loop over a prefix `xs` of receivers that all resolve
and extract successfully, while the connection stays open, performs two
connection checks per receiver, writes the payloads in order, dispatches
and counts one extraction per receiver, and leaves the model origin
time set (idempotently) — then continues with the remaining
receivers. -/
theorem receiver_loop_clean_segment (wfun : ρ → ℚ × ℚ) (pay : ρ → α)
    (xs : List ρ) :
    ∀ (ys : List ρ) (s : LoopState α),
      (∀ r ∈ xs, resolve r = some (wfun r)) →
      (∀ r ∈ xs, extract r (wfun r) = Except.ok (pay r)) →
      (∀ j, s.checks ≤ j → j < s.checks + 2 * xs.length →
        closed j = false) →
      receiver_loop closed resolve extract tofs (xs ++ ys) s =
        receiver_loop closed resolve extract tofs ys
          ⟨s.checks + 2 * xs.length, s.written ++ xs.map pay,
           s.dispatched + xs.length, s.count + xs.length,
           if xs.isEmpty then s.fs else set_origin tofs s.fs⟩ := by
  induction xs with
  | nil =>
      intro ys s _ _ _
      simp
  | cons r rest ih =>
      intro ys s hres hext hcl
      have hc : closed s.checks = false :=
        hcl s.checks le_rfl (by simp only [List.length_cons]; omega)
      have hc2 : closed (s.checks + 1) = false :=
        hcl (s.checks + 1) (by omega)
          (by simp only [List.length_cons]; omega)
      rw [List.cons_append,
        receiver_loop_ok_step closed resolve extract tofs r (rest ++ ys) s
          (wfun r) (pay r) hc (hres r (by simp)) (hext r (by simp)) hc2,
        ih ys _ (fun x hx => hres x (by simp [hx]))
          (fun x hx => hext x (by simp [hx]))
          (fun j h1 h2 => hcl j (by simp at h1 ⊢; omega)
            (by simp at h2 ⊢; omega))]
      congr 1
      simp only [LoopState.mk.injEq, List.length_cons, List.map_cons,
        List.isEmpty_cons]
      refine ⟨by omega, by simp, by omega, by omega, ?_⟩
      cases rest <;> simp [set_origin_idem]

/-- A receiver whose window resolution returns `none` is skipped: one
connection check, nothing else changes. With the connection open and
every receiver skipped, the loop completes with state otherwise
untouched. -/
theorem receiver_loop_all_skip :
    ∀ (rs : List ρ) (s : LoopState α),
      (∀ r ∈ rs, resolve r = none) →
      receiver_loop (fun _ => false) resolve extract tofs rs s =
        PostResult.finished { s with checks := s.checks + rs.length } := by
  intro rs
  induction rs with
  | nil => intro s _; simp [receiver_loop]
  | cons r rest ih =>
      intro s hall
      rw [receiver_loop_skip_step (fun _ => false) resolve extract tofs
        r rest s rfl (hall r (by simp))]
      rw [ih _ (fun x hx => hall x (by simp [hx]))]
      congr 1
      simp only [LoopState.mk.injEq, List.length_cons, and_true, true_and]
      omega

/-- The only `HTTPError` the receiver loop itself raises is the fixed
generic extraction message (the "no seismograms" error is raised after
the loop, by `post`). -/
theorem receiver_loop_error_generic :
    ∀ (rs : List ρ) (s : LoopState α) (m : String) (s' : LoopState α),
      receiver_loop closed resolve extract tofs rs s =
        PostResult.httpError m s' → m = msg_could_not_extract := by
  intro rs
  induction rs with
  | nil => intro s m s' h; simp [receiver_loop] at h
  | cons r rest ih =>
      intro s m s' h
      cases hc : closed s.checks with
      | true =>
          rw [receiver_loop_closed_step closed resolve extract tofs
            r rest s hc] at h
          simp at h
      | false =>
          cases hr : resolve r with
          | none =>
              rw [receiver_loop_skip_step closed resolve extract tofs
                r rest s hc hr] at h
              exact ih _ _ _ h
          | some w =>
              cases hx : extract r w with
              | ok p =>
                  cases hc2 : closed (s.checks + 1) with
                  | true =>
                      rw [receiver_loop_ok_closed_step closed resolve extract
                        tofs r rest s w p hc hr hx hc2] at h
                      simp at h
                  | false =>
                      rw [receiver_loop_ok_step closed resolve extract tofs
                        r rest s w p hc hr hx hc2] at h
                      exact ih _ _ _ h
              | error e =>
                  cases hc2 : closed (s.checks + 1) with
                  | true =>
                      rw [receiver_loop_error_closed_step closed resolve
                        extract tofs r rest s w e hc hr hx hc2] at h
                      simp at h
                  | false =>
                      rw [receiver_loop_error_step closed resolve extract
                        tofs r rest s w e hc hr hx hc2] at h
                      simp only [PostResult.httpError.injEq] at h
                      exact h.1.symm

/-- Whatever happens in the loop, the final model is either the initial
one or the initial one with its origin time reassigned (once) to
`tofs + additional_time_shift`. -/
theorem receiver_loop_fs :
    ∀ (rs : List ρ) (s : LoopState α),
      (receiver_loop closed resolve extract tofs rs s).state.fs = s.fs ∨
      (receiver_loop closed resolve extract tofs rs s).state.fs =
        set_origin tofs s.fs := by
  intro rs
  induction rs with
  | nil => intro s; left; rfl
  | cons r rest ih =>
      intro s
      cases hc : closed s.checks with
      | true =>
          rw [receiver_loop_closed_step closed resolve extract tofs
            r rest s hc]
          left; rfl
      | false =>
          cases hr : resolve r with
          | none =>
              rw [receiver_loop_skip_step closed resolve extract tofs
                r rest s hc hr]
              exact ih _
          | some w =>
              cases hx : extract r w with
              | ok p =>
                  cases hc2 : closed (s.checks + 1) with
                  | true =>
                      rw [receiver_loop_ok_closed_step closed resolve extract
                        tofs r rest s w p hc hr hx hc2]
                      right; rfl
                  | false =>
                      rw [receiver_loop_ok_step closed resolve extract tofs
                        r rest s w p hc hr hx hc2]
                      rcases ih ⟨s.checks + 2, s.written ++ [p],
                          s.dispatched + 1, s.count + 1,
                          set_origin tofs s.fs⟩ with h | h
                      · right; exact h
                      · right; rw [h]; exact set_origin_idem tofs s.fs
              | error e =>
                  cases hc2 : closed (s.checks + 1) with
                  | true =>
                      rw [receiver_loop_error_closed_step closed resolve
                        extract tofs r rest s w e hc hr hx hc2]
                      left; rfl
                  | false =>
                      rw [receiver_loop_error_step closed resolve extract
                        tofs r rest s w e hc hr hx hc2]
                      left; rfl

end Loop

/-- C7: a receiver whose phase-relative window resolves to "no window"
is skipped — one connection check, no error, no write, no dispatch, no
success-count increment; when every receiver is skipped the loop ends
with the counter at zero and `post` raises the 400 "No seismograms
found ..." error with nothing written; a completed loop with a nonzero
counter raises nothing; and that error arises only from the
zero-counter check after the full loop. -/
theorem no_results_error {ρ ε α : Type} (resolve : ρ → Option (ℚ × ℚ))
    (extract : ρ → ℚ × ℚ → Except ε α) (tofs : ℚ) (fs : FiniteSource) :
    (∀ (r : ρ) (rest : List ρ) (s : LoopState α), resolve r = none →
      receiver_loop (fun _ => false) resolve extract tofs (r :: rest) s =
        receiver_loop (fun _ => false) resolve extract tofs rest
          { s with checks := s.checks + 1 }) ∧
    (∀ receivers : List ρ, (∀ r ∈ receivers, resolve r = none) →
      post (fun _ => false) resolve extract tofs fs receivers =
        PostResult.httpError msg_no_seismograms
          ⟨receivers.length, [], 0, 0, fs⟩) ∧
    (∀ (receivers : List ρ) (s' : LoopState α),
      receiver_loop (fun _ => false) resolve extract tofs receivers
          ⟨0, [], 0, 0, fs⟩ = PostResult.finished s' → s'.count ≠ 0 →
      post (fun _ => false) resolve extract tofs fs receivers =
        PostResult.finished s') ∧
    (∀ (receivers : List ρ) (s' : LoopState α),
      post (fun _ => false) resolve extract tofs fs receivers =
        PostResult.httpError msg_no_seismograms s' → s'.count = 0) := by
  refine ⟨?_, ?_, ?_, ?_⟩
  · intro r rest s hr
    exact receiver_loop_skip_step (fun _ => false) resolve extract tofs
      r rest s rfl hr
  · intro receivers hall
    have h := receiver_loop_all_skip resolve extract tofs receivers
      ⟨0, [], 0, 0, fs⟩ hall
    simp only [post, h]
    norm_num
  · intro receivers s' h hc
    simp only [post, h, if_neg hc]
  · intro receivers s' h
    simp only [post] at h
    cases hl : receiver_loop (fun _ => false) resolve extract tofs
        receivers ⟨0, [], 0, 0, fs⟩ with
    | finished s2 =>
        rw [hl] at h
        dsimp only at h
        by_cases hc : s2.count = 0
        · rw [if_pos hc] at h
          simp only [PostResult.httpError.injEq] at h
          rw [← h.2]
          exact hc
        · rw [if_neg hc] at h
          exact absurd h (by simp)
    | closedConn s2 =>
        rw [hl] at h
        exact absurd h (by simp)
    | httpError m s2 =>
        rw [hl] at h
        dsimp only at h
        simp only [PostResult.httpError.injEq] at h
        have := receiver_loop_error_generic (fun _ => false) resolve extract
          tofs receivers ⟨0, [], 0, 0, fs⟩ m s2 hl
        rw [h.1] at this
        exact absurd this (by decide)

/-- A window resolver for the witnesses: receiver `0` has no window,
every other receiver resolves to the window `(1, 2)`. -/
def resolveW : ℕ → Option (ℚ × ℚ) := fun r => if r = 0 then none else some (1, 2)

/-- An extraction function for the witnesses: always succeeds with
payload `0`. -/
def extractW : ℕ → ℚ × ℚ → Except Unit ℕ := fun _ _ => Except.ok 0

/-- Witness for C7 with `resolveW`/`extractW`: the skip step for
receiver `0`, the "no seismograms" error for the all-skip set `[0, 0]`
with empty payload and zero count, the clean single-receiver run `[1]`,
and the zero-count diagnosis of the error. -/
theorem no_results_error_witness :
    (receiver_loop (fun _ => false) resolveW extractW 0 [0]
        ⟨0, [], 0, 0, flatFS⟩ =
      receiver_loop (fun _ => false) resolveW extractW 0 []
        ⟨0 + 1, [], 0, 0, flatFS⟩) ∧
    (post (fun _ => false) resolveW extractW 0 flatFS [0, 0] =
      PostResult.httpError msg_no_seismograms ⟨2, [], 0, 0, flatFS⟩) ∧
    (post (fun _ => false) resolveW extractW 0 flatFS [1] =
      PostResult.finished ⟨2, [0], 1, 1, set_origin 0 flatFS⟩) ∧
    (⟨2, [], 0, 0, flatFS⟩ : LoopState ℕ).count = 0 := by
  have hall : ∀ r ∈ [0, 0], resolveW r = none := by
    intro r hr
    have h0 : r = 0 := by simpa using hr
    simp [resolveW, h0]
  have h2 := (no_results_error resolveW extractW 0 flatFS).2.1 [0, 0] hall
  refine ⟨(no_results_error resolveW extractW 0 flatFS).1 0 [] _ rfl, h2,
    ?_, ?_⟩
  · exact (no_results_error resolveW extractW 0 flatFS).2.2.1 [1]
      ⟨2, [0], 1, 1, set_origin 0 flatFS⟩ rfl (by simp)
  · have h4 := (no_results_error resolveW extractW 0 flatFS).2.2.2 [0, 0]
      ⟨2, [], 0, 0, flatFS⟩ h2
    exact h4

/-- C8: the connection flag is consulted exactly twice per receiver
iteration — before dispatching the extraction and after its result
returns (a clean `N`-receiver run performs exactly `2 * N` checks,
second conjunct).  If the connection closes after receiver `k` of `N`
(`k < N`) — the flag first reads true at check `2 * k`, the pre-dispatch
check of receiver `k` — the loop flushes and finishes without raising:
the result is `closedConn` (not `httpError`) carrying exactly the first
payloads of the first `k` receivers, with exactly `k` extractions dispatched
(first conjunct). -/
theorem client_disconnect_truncates {ρ ε α : Type}
    (resolve : ρ → Option (ℚ × ℚ)) (extract : ρ → ℚ × ℚ → Except ε α)
    (wfun : ρ → ℚ × ℚ) (pay : ρ → α) (tofs : ℚ) (fs : FiniteSource)
    (receivers : List ρ) (k : ℕ) (hk : k < receivers.length)
    (hres : ∀ r ∈ receivers, resolve r = some (wfun r))
    (hext : ∀ r ∈ receivers, extract r (wfun r) = Except.ok (pay r)) :
    post (fun j => decide (2 * k ≤ j)) resolve extract tofs fs receivers =
      PostResult.closedConn
        ⟨2 * k + 1, (receivers.take k).map pay, k, k,
         if k = 0 then fs else set_origin tofs fs⟩ ∧
    post (fun _ => false) resolve extract tofs fs receivers =
      PostResult.finished
        ⟨2 * receivers.length, receivers.map pay, receivers.length,
         receivers.length, set_origin tofs fs⟩ := by
  have hlen : (receivers.take k).length = k := by
    simp only [List.length_take]
    omega
  have hne : receivers ≠ [] := by
    intro hnil
    rw [hnil] at hk
    exact absurd hk (by simp)
  constructor
  · have hcp := receiver_loop_clean_segment (fun j => decide (2 * k ≤ j))
      resolve extract tofs wfun pay (receivers.take k) (receivers.drop k)
      ⟨0, [], 0, 0, fs⟩
      (fun r hr => hres r (List.mem_of_mem_take hr))
      (fun r hr => hext r (List.mem_of_mem_take hr))
      (by
        intro j h1 h2
        dsimp only at h1 h2
        rw [hlen] at h2
        simp only [decide_eq_false_iff_not]
        omega)
    rw [List.take_append_drop] at hcp
    have hdr : receivers.drop k = receivers[k] :: receivers.drop (k + 1) :=
      List.drop_eq_getElem_cons hk
    unfold post
    rw [hcp, hdr, receiver_loop_closed_step _ _ _ _ _ _ _
      (by dsimp only; rw [hlen]; simp)]
    dsimp only
    congr 1
    rw [hlen]
    by_cases hk0 : k = 0
    · subst hk0
      norm_num
    · have hemp : (receivers.take k).isEmpty = false := by
        simp [List.isEmpty_iff, List.take_eq_nil_iff]
        exact ⟨hk0, hne⟩
      simp [hemp, hk0]
  · have hcp := receiver_loop_clean_segment (fun _ => false) resolve extract
      tofs wfun pay receivers [] ⟨0, [], 0, 0, fs⟩ hres hext
      (fun j _ _ => rfl)
    rw [List.append_nil] at hcp
    have hemp : receivers.isEmpty = false := by simp [hne]
    unfold post
    rw [hcp, receiver_loop_nil]
    dsimp only
    rw [if_neg (by
      intro h
      simp only [Nat.zero_add] at h
      exact hne (List.eq_nil_of_length_eq_zero h))]
    congr 1
    simp [hemp]

/-- Witness for C8: two receivers `[1, 2]`, disconnect after receiver 1
(`k = 1`): the response holds only the payload of receiver 1; the clean run
performs 4 checks and writes both. -/
theorem client_disconnect_truncates_witness :
    post (fun j => decide (2 * 1 ≤ j)) resolveW extractW 0 flatFS [1, 2] =
      PostResult.closedConn
        ⟨2 * 1 + 1, ([1, 2].take 1).map (fun _ => 0), 1, 1,
         if 1 = 0 then flatFS else set_origin 0 flatFS⟩ ∧
    post (fun _ => false) resolveW extractW 0 flatFS [1, 2] =
      PostResult.finished
        ⟨2 * [1, 2].length, [1, 2].map (fun _ => 0), [1, 2].length,
         [1, 2].length, set_origin 0 flatFS⟩ := by
  have hres : ∀ r ∈ [1, 2], resolveW r = some ((fun _ => (1, 2)) r) := by
    intro r hr
    rcases (by simpa using hr : r = 1 ∨ r = 2) with rfl | rfl <;> rfl
  exact client_disconnect_truncates resolveW extractW (fun _ => (1, 2))
    (fun _ => 0) 0 flatFS [1, 2] 1 (by simp) hres (fun r _ => rfl)

/-- C9: if extraction fails for a single receiver (any exception `e`),
the request aborts immediately with the fixed generic 400 message —
independent of `e`, so no exception details leak: after a clean prefix
`pre`, the failing receiver is dispatched (`pre.length + 1` dispatches)
but not skipped, nothing is written for it, and the receivers after it
are never processed. -/
theorem extraction_failure_aborts {ρ ε α : Type}
    (resolve : ρ → Option (ℚ × ℚ)) (extract : ρ → ℚ × ℚ → Except ε α)
    (wfun : ρ → ℚ × ℚ) (pay : ρ → α) (tofs : ℚ) (fs : FiniteSource)
    (pre rest : List ρ) (rbad : ρ) (e : ε)
    (hres : ∀ r ∈ pre, resolve r = some (wfun r))
    (hext : ∀ r ∈ pre, extract r (wfun r) = Except.ok (pay r))
    (hresb : resolve rbad = some (wfun rbad))
    (hbad : extract rbad (wfun rbad) = Except.error e) :
    post (fun _ => false) resolve extract tofs fs (pre ++ rbad :: rest) =
      PostResult.httpError msg_could_not_extract
        ⟨2 * pre.length + 2, pre.map pay, pre.length + 1, pre.length,
         if pre.isEmpty then fs else set_origin tofs fs⟩ := by
  have hcp := receiver_loop_clean_segment (fun _ => false) resolve extract
    tofs wfun pay pre (rbad :: rest) ⟨0, [], 0, 0, fs⟩ hres hext
    (fun j _ _ => rfl)
  unfold post
  rw [hcp, receiver_loop_error_step (fun _ => false) resolve extract tofs
    rbad rest _ (wfun rbad) e rfl hresb hbad rfl]
  dsimp only
  congr 1
  simp

/-- An extraction function failing exactly at receiver `3`
(witness input). -/
def extractFailW : ℕ → ℚ × ℚ → Except Unit ℕ :=
  fun r _ => if r = 3 then Except.error () else Except.ok 0

/-- Witness for C9: receivers `[1, 3, 2]` where the extraction for
receiver `3` raises — the request aborts with the generic message after
writing only the payload of receiver `1`. -/
theorem extraction_failure_aborts_witness :
    post (fun _ => false) resolveW extractFailW 0 flatFS ([1] ++ 3 :: [2]) =
      PostResult.httpError msg_could_not_extract
        ⟨2 * [1].length + 2, [1].map (fun _ => 0), [1].length + 1,
         [1].length, if [1].isEmpty then flatFS else set_origin 0 flatFS⟩ :=
  extraction_failure_aborts resolveW extractFailW (fun _ => (1, 2))
    (fun _ => 0) 0 flatFS [1] [2] 3 ()
    (by
      intro r hr
      have h1 : r = 1 := by simpa using hr
      simp [resolveW, h1])
    (by
      intro r hr
      have h1 : r = 1 := by simpa using hr
      simp [extractFailW, h1])
    rfl rfl

/-- C10: each successful per-receiver extraction reassigns the shared
`origin_time` of the shared model to
`time_of_first_sample + additional_time_shift`
and changes nothing else the resolver reads; across the whole loop the
model is either untouched or exactly this one reassignment, whatever
the receivers, outcomes and disconnects — and the assigned value is
precisely `earliest_starttime`, the same for every receiver of the
request. -/
theorem origin_time_invariant {ρ ε α : Type} (closed : ℕ → Bool)
    (resolve : ρ → Option (ℚ × ℚ)) (extract : ρ → ℚ × ℚ → Except ε α)
    (tofs : ℚ) :
    (∀ (fs fs' : FiniteSource) (ex : Except ε α) (p : α),
      get_finite_source ex fs tofs = (Except.ok p, fs') →
      fs'.origin_time = tofs + fs.additional_time_shift ∧
      fs'.additional_time_shift = fs.additional_time_shift ∧
      fs' = set_origin tofs fs) ∧
    (∀ (rs : List ρ) (s : LoopState α),
      (receiver_loop closed resolve extract tofs rs s).state.fs = s.fs ∨
      (receiver_loop closed resolve extract tofs rs s).state.fs =
        set_origin tofs s.fs) ∧
    (∀ (fs : FiniteSource) (args : Args),
      (set_origin (time_of_first_sample fs args) fs).origin_time =
        earliest_starttime fs args) := by
  refine ⟨?_, receiver_loop_fs closed resolve extract tofs, fun _ _ => rfl⟩
  intro fs fs' ex p h
  cases ex with
  | error e =>
      exact absurd (congrArg Prod.fst h) (by simp [get_finite_source])
  | ok q =>
      have h2 : fs' = set_origin tofs fs := (congrArg Prod.snd h).symm
      exact ⟨by rw [h2]; rfl, by rw [h2]; rfl, h2⟩

/-- Witness for C10: a successful extraction over `flatFS` sets the
origin time of the model to `tofs + additional_time_shift`. -/
theorem origin_time_invariant_witness :
    (set_origin 5 flatFS).origin_time = 5 + flatFS.additional_time_shift ∧
    (set_origin 5 flatFS).additional_time_shift =
      flatFS.additional_time_shift ∧
    set_origin 5 flatFS = set_origin 5 flatFS :=
  (origin_time_invariant (fun _ => false) resolveW extractW 5).1
    flatFS (set_origin 5 flatFS) (Except.ok 0) 0 rfl

end FiniteSourceRoute
